import Mathlib

/-!
# Budget app: shallow embedding of the month-lifecycle and reporting core

This file embeds the core of a personal-finance tracker (SQLite-backed,
`db.py` month lifecycle plus `helper_functions.py` calendar and reporting
logic) as executable Lean definitions, and proves the specification's
claims about it.  The relational store is modelled as lists of rows;
mutating operations are state transformers returning `Except String DB`
(a raised Python exception is `.error`, committed state is `.ok`).
Monetary amounts (SQLite `REAL`) are modelled as integers (objective
percentages, the one genuinely fractional quantity, as rationals).
-/

namespace BudgetApp

/-- Gregorian leap-year rule, as used by Python's `datetime.date`. -/
def isLeap (y : Nat) : Bool :=
  (y % 4 == 0 && y % 100 != 0) || y % 400 == 0

/-- Number of days in a month (1 = January, ..., 12 = December). -/
def daysInMonth (y m : Nat) : Nat :=
  if m == 2 then (if isLeap y then 29 else 28)
  else if m == 4 || m == 6 || m == 9 || m == 11 then 30
  else 31

/-- A calendar date, `datetime.date`'s year/month/day payload. -/
structure Date where
  year : Nat
  month : Nat
  day : Nat
deriving DecidableEq, Repr

/-- `helper_functions.clamp_day`: clamp a day number to the last day of
the given month (the last day is computed in the source as
`date(year, month, 1) + relativedelta(months=1, days=-1)`). -/
def clamp_day (year month day : Nat) : Nat :=
  min day (daysInMonth year month)

/-- `dateutil.relativedelta(months=1)` applied to a date: advance the
month by one (carrying into the year) and clamp the day to the new
month's length. -/
def addOneMonth (d : Date) : Date :=
  let y := if d.month ≥ 12 then d.year + 1 else d.year
  let m := if d.month ≥ 12 then 1 else d.month + 1
  ⟨y, m, min d.day (daysInMonth y m)⟩

/-- Two-digit zero-padded rendering of a number, Python's `{:02d}`. -/
def fmt2 (n : Nat) : String :=
  if n < 10 then "0" ++ toString n else toString n

/-- `helper_functions.month_id_from_date`: `f"{d.year}-{d.month:02d}"`. -/
def month_id_from_date (d : Date) : String :=
  toString d.year ++ "-" ++ fmt2 d.month

/-- ISO rendering of a date, `f"{year}-{month:02d}-{day:02d}"`. -/
def dateIso (d : Date) : String :=
  toString d.year ++ "-" ++ fmt2 d.month ++ "-" ++ fmt2 d.day

/-- Parse a decimal numeral from a list of characters (Python `int`
on the well-formed inputs the application produces). -/
def parseNatChars (cs : List Char) : Nat :=
  cs.foldl (fun a c => a * 10 + (c.toNat - 48)) 0

/-- Split a character list at `'-'` separators (Python `str.split("-")`). -/
def splitDash : List Char → List Char → List (List Char)
  | [], acc => [acc.reverse]
  | c :: rest, acc =>
      if c = '-' then acc.reverse :: splitDash rest []
      else splitDash rest (c :: acc)

/-- `year, month = map(int, month_id.split("-"))` on a `YYYY-MM` id. -/
def parseMonthId (mid : String) : Nat × Nat :=
  match splitDash mid.toList [] with
  | [y, m] => (parseNatChars y, parseNatChars m)
  | _ => (0, 0)

/-- `helper_functions.compute_credit_card_cycle`: returns
`(statement_month_id, due_month_id, due_date)` for a purchase date and a
card's statement-close and due days. -/
def compute_credit_card_cycle (tx_date : Date)
    (statement_close_day due_day : Nat) : String × String × Date :=
  let close_day := clamp_day tx_date.year tx_date.month statement_close_day
  let stmt_month_date :=
    if tx_date.day > close_day then addOneMonth tx_date else tx_date
  let statement_month_id := month_id_from_date stmt_month_date
  let due_month_date := addOneMonth ⟨stmt_month_date.year, stmt_month_date.month, 1⟩
  let due_day_clamped := clamp_day due_month_date.year due_month_date.month due_day
  let due_date : Date := ⟨due_month_date.year, due_month_date.month, due_day_clamped⟩
  let due_month_id := month_id_from_date due_date
  (statement_month_id, due_month_id, due_date)

/-- `db.compute_transaction_date`: date string for a materialized
template transaction — the template's due day clamped to the month's
last day, rendered `f"{year}-{month:02d}-{day:02d}"`. -/
def compute_transaction_date (mid : String) (due_day : Nat) : String :=
  let (year, month) := parseMonthId mid
  let last_day := daysInMonth year month
  let day := min due_day last_day
  toString year ++ "-" ++ fmt2 month ++ "-" ++ fmt2 day

/-! ## The relational store

One structure per table row, lists of rows for tables.  Nullable SQL
columns are `Option`s; `REAL` amounts are integers. -/

/-- A row of the `months` table. -/
structure Month where
  month_id : String
  starting_balance : ℤ
  ending_balance : Option ℤ
  status : String
deriving DecidableEq, Repr

/-- A row of the `transactions` table (the columns the core reads). -/
structure Txn where
  date : String
  month_id : String
  amount : ℤ
  category : String
  subcategory : Option String
  payment_method : Option String
  bank_account_id : Option Nat
  credit_card_id : Option Nat
  statement_month_id : Option String
  due_month_id : Option String
  due_date : Option String
  note : String
  tx_type : String
deriving DecidableEq, Repr

/-- A row of the `account_month_balances` table. -/
structure AccountMonthBalance where
  month_id : String
  bank_account_id : Nat
  starting_balance : ℤ
  ending_balance : Option ℤ
deriving DecidableEq, Repr

/-- A row of the `fixed_expenses` or `income_sources` table (they share
their shape). -/
structure Template where
  name : String
  amount : ℤ
  due_day : Nat
  category : String
  subcategory : Option String
  bank_account_id : Option Nat
  active : Bool
deriving DecidableEq, Repr

/-- A row of the `budget_objectives` table. -/
structure Objective where
  category : String
  subcategory : Option String
  percentage : ℚ
  active : Bool
deriving DecidableEq, Repr

/-- The SQLite database: the tables the month-lifecycle and reporting
core touches. -/
structure DB where
  months : List Month
  transactions : List Txn
  account_month_balances : List AccountMonthBalance
  fixed_expenses : List Template
  income_sources : List Template
  budget_objectives : List Objective
deriving DecidableEq, Repr

/-! ## Month helpers and transactions (`db.py`) -/

/-- `db.is_month_closed`: fetch the month's status row; closed iff a row
exists and its status is `"closed"`. -/
def is_month_closed (db : DB) (mid : String) : Bool :=
  match db.months.find? (fun m => m.month_id == mid) with
  | some row => row.status == "closed"
  | none => false

/-- `db.month_exists`: a `months` row with this id exists. -/
def month_exists (db : DB) (mid : String) : Bool :=
  (db.months.find? (fun m => m.month_id == mid)).isSome

/-- `db.get_active_fixed_expenses`: `fixed_expenses` rows with `active = 1`. -/
def get_active_fixed_expenses (db : DB) : List Template :=
  db.fixed_expenses.filter (·.active)

/-- `db.get_active_income_sources`: `income_sources` rows with `active = 1`. -/
def get_active_income_sources (db : DB) : List Template :=
  db.income_sources.filter (·.active)

/-- `db.add_transaction`: raises when the target month is closed,
otherwise inserts one row into `transactions`. -/
def add_transaction (db : DB) (t : Txn) : Except String DB :=
  if is_month_closed db t.month_id then
    .error ("Month " ++ t.month_id ++ " is closed. Add a correction to the current month.")
  else
    .ok { db with transactions := db.transactions ++ [t] }

/-- The transaction `db.open_month` materializes for an active
fixed-expense template. -/
def fixedExpenseTxn (mid : String) (fx : Template) : Txn :=
  { date := compute_transaction_date mid fx.due_day
    month_id := mid
    amount := -|fx.amount|
    category := fx.category
    subcategory := fx.subcategory
    payment_method := some "debit"
    bank_account_id := fx.bank_account_id
    credit_card_id := none
    statement_month_id := none
    due_month_id := none
    due_date := none
    note := "Fixed expense: " ++ fx.name
    tx_type := "normal" }

/-- The transaction `db.open_month` materializes for an active
income-source template. -/
def incomeSourceTxn (mid : String) (inc : Template) : Txn :=
  { date := compute_transaction_date mid inc.due_day
    month_id := mid
    amount := |inc.amount|
    category := "Income"
    subcategory := inc.subcategory
    payment_method := some "debit"
    bank_account_id := inc.bank_account_id
    credit_card_id := none
    statement_month_id := none
    due_month_id := none
    due_date := none
    note := "Income: " ++ inc.name
    tx_type := "normal" }

/-- `db.open_month`: no-op when the month exists; otherwise insert an
open `months` row and materialize every active fixed-expense and
income-source template through `add_transaction`. -/
def open_month (db : DB) (mid : String) (starting_balance : ℤ) :
    Except String DB :=
  if month_exists db mid then .ok db
  else do
    let db₁ : DB :=
      { db with months := db.months ++ [⟨mid, starting_balance, none, "open"⟩] }
    let db₂ ← (get_active_fixed_expenses db₁).foldlM
      (fun s fx => add_transaction s (fixedExpenseTxn mid fx)) db₁
    let db₃ ← (get_active_income_sources db₂).foldlM
      (fun s inc => add_transaction s (incomeSourceTxn mid inc)) db₂
    .ok db₃

/-- `SUM(amount) ... WHERE month_id = ?` over the transactions table. -/
def monthNet (txns : List Txn) (mid : String) : ℤ :=
  ((txns.filter (fun t => t.month_id == mid)).map (·.amount)).sum

/-- `SUM(amount) ... WHERE month_id = ? AND bank_account_id = ?`: the
per-account net; rows whose `bank_account_id` is NULL never match the
SQL equality, so credit-card transactions are excluded. -/
def accountNet (txns : List Txn) (mid : String) (acct : Nat) : ℤ :=
  ((txns.filter (fun t => t.month_id == mid && t.bank_account_id == some acct)).map
    (·.amount)).sum

/-- `db.close_month`: raises when no open row with this id exists;
otherwise freezes the aggregate ending balance into `months`, the
per-account ending balances into `account_month_balances`, and returns
the aggregate ending balance. -/
def close_month (db : DB) (mid : String) : Except String (DB × ℤ) :=
  match db.months.find? (fun m => m.month_id == mid && m.status == "open") with
  | none => .error ("Month " ++ mid ++ " does not exist or is already closed.")
  | some row =>
    let starting_balance := row.starting_balance
    let net := monthNet db.transactions mid
    let ending_balance := starting_balance + net
    let months' := db.months.map (fun m =>
      if m.month_id == mid then
        { m with ending_balance := some ending_balance, status := "closed" }
      else m)
    let balances' := db.account_month_balances.map (fun a =>
      if a.month_id == mid then
        let ending := a.starting_balance + accountNet db.transactions mid a.bank_account_id
        { a with ending_balance := some ending }
      else a)
    .ok ({ db with months := months', account_month_balances := balances' },
         ending_balance)

/-! ## Reporting (`helper_functions.py`) -/

/-- `helper_functions.get_total_income`:
`SUM(amount) WHERE month_id = ? AND category = 'Income'`. -/
def get_total_income (db : DB) (mid : String) : ℤ :=
  ((db.transactions.filter
      (fun t => t.month_id == mid && t.category == "Income")).map (·.amount)).sum

/-- `helper_functions.get_active_objectives`: the active objective rows
with NULL subcategory, in table order; the source collects them into a
Python dict keyed by category, so a later row overwrites an earlier one. -/
def get_active_objectives (db : DB) : List (String × ℚ) :=
  (db.budget_objectives.filter (fun o => o.active && o.subcategory == none)).map
    (fun o => (o.category, o.percentage))

/-- Python `dict` built by insertion followed by `.get k`: the last
binding for the key wins. -/
def dictGet (l : List (String × ℚ)) (k : String) : Option ℚ :=
  (l.reverse.find? (fun p => p.1 == k)).map (·.2)

/-- `helper_functions.get_category_planned`: raises when the category
has no active objective, else total income times the objective
percentage. -/
def get_category_planned (db : DB) (mid cat : String) : Except String ℚ :=
  match dictGet (get_active_objectives db) cat with
  | none => .error ("No objective defined for category " ++ cat)
  | some pct => .ok (get_total_income db mid * pct)

/-! ### Half-month cashflow split -/

/-- A row of the UNION query inside
`helper_functions.get_half_month_cashflow_splits`: category,
`effective_date` and amount (`date` is NOT NULL, so the COALESCE never
yields SQL NULL; the Python falsy check still skips empty strings). -/
structure SplitRow where
  category : String
  effective_date : String
  amount : ℤ
deriving DecidableEq, Repr

/-- `category IN ('Income', 'Fixed', 'Variable', 'Savings')`. -/
def isSplitCategory (c : String) : Bool :=
  c == "Income" || c == "Fixed" || c == "Variable" || c == "Savings"

/-- WHERE clause of the first UNION arm: debit/income transactions of
the target month (`month_id = ?` and
`payment_method IS NULL OR payment_method = 'debit'`). -/
def debitPred (mid : String) (t : Txn) : Bool :=
  t.month_id == mid
    && (t.payment_method == none || t.payment_method == some "debit")
    && isSplitCategory t.category

/-- WHERE clause of the second UNION arm: credit-card transactions
selected by `COALESCE(due_month_id, month_id) = ?`. -/
def creditPred (mid : String) (t : Txn) : Bool :=
  t.due_month_id.getD t.month_id == mid
    && t.payment_method == some "credit_card"
    && isSplitCategory t.category

/-- SELECT clause of either arm: category, an effective date, amount. -/
def txnRow (eff : Txn → String) (t : Txn) : SplitRow :=
  ⟨t.category, eff t, t.amount⟩

/-- First arm of the UNION, effective date = the transaction's own
date. -/
def debitRows (txns : List Txn) (mid : String) : List SplitRow :=
  (txns.filter (debitPred mid)).map (txnRow Txn.date)

/-- Second arm of the UNION, effective date =
`COALESCE(due_date, date)`. -/
def creditRows (txns : List Txn) (mid : String) : List SplitRow :=
  (txns.filter (creditPred mid)).map (txnRow (fun t => t.due_date.getD t.date))

/-- The nested result dict of `get_half_month_cashflow_splits`:
`splits[category][half]` for the four fixed categories. -/
structure Splits where
  incomeFirst : ℤ
  incomeSecond : ℤ
  fixedFirst : ℤ
  fixedSecond : ℤ
  variableFirst : ℤ
  variableSecond : ℤ
  savingsFirst : ℤ
  savingsSecond : ℤ
deriving DecidableEq, Repr

/-- The initial all-zero splits dict. -/
def Splits.zero : Splits := ⟨0, 0, 0, 0, 0, 0, 0, 0⟩

/-- `int(str(effective_date)[8:10])`: the day-of-month digits of an ISO
date string. -/
def effectiveDay (s : String) : Nat :=
  parseNatChars ((s.toList.drop 8).take 2)

/-- Loop body of `get_half_month_cashflow_splits`: skip falsy effective
dates, bucket by day ≤ 15, add raw amount for Income and absolute
amount for the other categories.  (The SQL filter guarantees the
category is one of the four keys, so the fall-through branch is
unreachable there.) -/
def addSplitRow (sp : Splits) (r : SplitRow) : Splits :=
  if r.effective_date == "" then sp
  else
    let day := effectiveDay r.effective_date
    if r.category == "Income" then
      if day ≤ 15 then { sp with incomeFirst := sp.incomeFirst + r.amount }
      else { sp with incomeSecond := sp.incomeSecond + r.amount }
    else if r.category == "Fixed" then
      if day ≤ 15 then { sp with fixedFirst := sp.fixedFirst + |r.amount| }
      else { sp with fixedSecond := sp.fixedSecond + |r.amount| }
    else if r.category == "Variable" then
      if day ≤ 15 then { sp with variableFirst := sp.variableFirst + |r.amount| }
      else { sp with variableSecond := sp.variableSecond + |r.amount| }
    else if r.category == "Savings" then
      if day ≤ 15 then { sp with savingsFirst := sp.savingsFirst + |r.amount| }
      else { sp with savingsSecond := sp.savingsSecond + |r.amount| }
    else sp

/-- `helper_functions.get_half_month_cashflow_splits`: fold the loop
body over the UNION ALL of the two query arms. -/
def get_half_month_cashflow_splits (db : DB) (mid : String) : Splits :=
  (debitRows db.transactions mid ++ creditRows db.transactions mid).foldl
    addSplitRow Splits.zero

/-! ### Fixed-expense preview -/

/-- A dict in the list returned by
`helper_functions.preview_fixed_expenses_for_month`. -/
structure PreviewEntry where
  date : Date
  name : String
  subcategory : Option String
  amount : ℤ
deriving DecidableEq, Repr

/-- Stable insertion into a list sorted by `due_day`. -/
def insertByDueDay (t : Template) : List Template → List Template
  | [] => [t]
  | a :: rest =>
      if a.due_day ≤ t.due_day then a :: insertByDueDay t rest
      else t :: a :: rest

/-- Stable sort by `due_day` (SQL `ORDER BY due_day`). -/
def sortByDueDay : List Template → List Template
  | [] => []
  | a :: rest => insertByDueDay a (sortByDueDay rest)

/-- `helper_functions.get_fixed_expenses`: active rows,
`ORDER BY due_day` (modelled as a stable sort on `due_day`). -/
def get_fixed_expenses (db : DB) : List Template :=
  sortByDueDay (db.fixed_expenses.filter (·.active))

/-- Loop body of `preview_fixed_expenses_for_month`: try
`date(year, month, due_day)` and fall back to the month's last day on
`ValueError` (for a month in 1..12 the constructor succeeds exactly when
`1 ≤ due_day ≤ daysInMonth`); the amount is `-fx["amount"]`. -/
def previewFixedEntry (year month : Nat) (fx : Template) : PreviewEntry :=
  let tx_date : Date :=
    if 1 ≤ fx.due_day ∧ fx.due_day ≤ daysInMonth year month then
      ⟨year, month, fx.due_day⟩
    else
      ⟨year, month, daysInMonth year month⟩
  { date := tx_date, name := fx.name, subcategory := fx.subcategory,
    amount := -fx.amount }

/-- `helper_functions.preview_fixed_expenses_for_month`: one preview
entry per active fixed expense, plus the running total of the (negated)
amounts. -/
def preview_fixed_expenses_for_month (db : DB) (mid : String) :
    List PreviewEntry × ℤ :=
  let p := parseMonthId mid
  let entries := (get_fixed_expenses db).map (previewFixedEntry p.1 p.2)
  (entries, (entries.map (·.amount)).sum)

/-! ### Operations, for the state-machine claims -/

/-- One mutating call of the month-lifecycle core. -/
inductive Op where
  | openM (mid : String) (sb : ℤ)
  | closeM (mid : String)
  | addTx (t : Txn)
deriving DecidableEq, Repr

/-- Apply one operation to the store; `.error` means the Python call
raised, and — since each of these operations raises before any write is
committed — the store is unchanged. -/
def applyOp (db : DB) : Op → Except String DB
  | .openM mid sb => open_month db mid sb
  | .closeM mid => (close_month db mid).map (·.1)
  | .addTx t => add_transaction db t

/-- The `months` primary-key invariant: at most one row per month id. -/
def monthsUnique (db : DB) : Prop :=
  (db.months.map (·.month_id)).Nodup

instance (db : DB) : Decidable (monthsUnique db) := by
  unfold monthsUnique; infer_instance

/-! ## Spec-side calendar vocabulary -/

/-- The month after a `(year, month)` pair, in plain calendar terms. -/
def nextMonthPair (p : Nat × Nat) : Nat × Nat :=
  if p.2 ≥ 12 then (p.1 + 1, 1) else (p.1, p.2 + 1)

/-- The `YYYY-MM` id of a `(year, month)` pair. -/
def monthIdOfPair (p : Nat × Nat) : String :=
  toString p.1 ++ "-" ++ fmt2 p.2

/-- Every month has at least one day. -/
theorem one_le_daysInMonth (y m : Nat) : 1 ≤ daysInMonth y m := by
  unfold daysInMonth
  split_ifs <;> decide

end BudgetApp

namespace BudgetApp

example : clamp_day 2024 2 30 = 29 := by decide
example : compute_transaction_date "2024-03" 31 = "2024-03-31" := by decide

/-- C4: `compute_credit_card_cycle` keeps the statement in the
transaction's month when the day is at most the (clamped) close day and
rolls it to the next month otherwise; the due month is always the
statement month plus one, and the due date lies in the due month with
its day clamped to that month's length.  In particular, with
close day 20 and due day 5, a purchase on 2024-03-20 yields statement
"2024-03" and due date 2024-04-05, and a purchase on 2024-03-21 yields
statement "2024-04" and due date 2024-05-05. -/
theorem claim_C4_credit_card_cycle (tx : Date) (close_day due_day : Nat) :
    (compute_credit_card_cycle tx close_day due_day =
      (let stmtP := if tx.day ≤ clamp_day tx.year tx.month close_day
                    then (tx.year, tx.month)
                    else nextMonthPair (tx.year, tx.month)
       let dueP := nextMonthPair stmtP
       (monthIdOfPair stmtP, monthIdOfPair dueP,
        (⟨dueP.1, dueP.2, min due_day (daysInMonth dueP.1 dueP.2)⟩ : Date))))
    ∧ compute_credit_card_cycle ⟨2024, 3, 20⟩ 20 5 =
        ("2024-03", "2024-04", ⟨2024, 4, 5⟩)
    ∧ compute_credit_card_cycle ⟨2024, 3, 21⟩ 20 5 =
        ("2024-04", "2024-05", ⟨2024, 5, 5⟩) := by
  refine ⟨?_, by decide, by decide⟩
  unfold compute_credit_card_cycle nextMonthPair monthIdOfPair
    month_id_from_date addOneMonth
  by_cases h : tx.day ≤ clamp_day tx.year tx.month close_day
  · simp only [h, if_pos, Nat.not_lt.mpr h, if_neg, if_true, not_false_iff]
    by_cases h12 : tx.month ≥ 12 <;>
      simp [h12, clamp_day, Nat.min_eq_left (one_le_daysInMonth _ _)]
  · have h' : tx.day > clamp_day tx.year tx.month close_day := Nat.not_le.mp h
    simp only [h, if_neg, h', if_pos, not_false_iff]
    by_cases h12 : tx.month ≥ 12 <;>
      by_cases h12' : tx.month + 1 ≥ 12 <;>
      simp [h12, h12', clamp_day, Nat.min_eq_left (one_le_daysInMonth _ _)]

/-! ## Lemmas about the store operations -/

/-- With the `months` primary key, two rows carrying the same id are the
same row. -/
theorem month_eq_of_unique {ms : List Month}
    (hnd : (ms.map Month.month_id).Nodup) {a b : Month}
    (ha : a ∈ ms) (hb : b ∈ ms) (hid : a.month_id = b.month_id) : a = b :=
  List.inj_on_of_nodup_map hnd ha hb hid

/-- With the `months` primary key, the status query finds exactly the
row of the requested month. -/
theorem find?_month_eq {ms : List Month}
    (hnd : (ms.map Month.month_id).Nodup) {m : Month} (hm : m ∈ ms) :
    ms.find? (fun x => x.month_id == m.month_id) = some m := by
  induction ms with
  | nil => cases hm
  | cons a rest ih =>
    simp only [List.map_cons, List.nodup_cons] at hnd
    rcases List.mem_cons.mp hm with rfl | hmem
    · simp [List.find?]
    · have hne : (a.month_id == m.month_id) = false := by
        simp only [beq_eq_false_iff_ne, ne_eq]
        intro he
        exact hnd.1 (he ▸ List.mem_map.mpr ⟨m, hmem, rfl⟩)
      simp only [List.find?, hne]
      exact ih hnd.2 hmem

/-- A month none of whose rows is open cannot be found by
`close_month`'s open-row query. -/
theorem find?_open_eq_none {ms : List Month} {mid : String}
    (h : ∀ m ∈ ms, m.month_id = mid → m.status ≠ "open") :
    ms.find? (fun m => m.month_id == mid && m.status == "open") = none := by
  apply List.find?_eq_none.mpr
  intro m hm
  simp only [Bool.and_eq_true, beq_iff_eq, not_and]
  intro hid
  exact h m hm hid

/-- A successful `add_transaction` only appends to the transactions
table. -/
theorem add_transaction_ok_iff {db : DB} {t : Txn} {db' : DB} :
    add_transaction db t = .ok db' ↔
      is_month_closed db t.month_id = false ∧
      db' = { db with transactions := db.transactions ++ [t] } := by
  unfold add_transaction
  by_cases h : is_month_closed db t.month_id <;> simp [h, eq_comm]

/-- The materialization loop of `open_month` preserves every table but
`transactions`, and appends one transaction per template when the
target month is not closed in the starting state. -/
theorem foldlM_add_transaction_ok {α : Type} (g : α → Txn) (mid : String)
    (hmid : ∀ x, (g x).month_id = mid) :
    ∀ (l : List α) (s : DB), is_month_closed s mid = false →
      l.foldlM (fun s x => add_transaction s (g x)) s =
        .ok { s with transactions := s.transactions ++ l.map g } := by
  intro l
  induction l with
  | nil =>
    intro s _
    show Except.ok s = _
    simp
  | cons a rest ih =>
    intro s hs
    have hstep : add_transaction s (g a) =
        .ok { s with transactions := s.transactions ++ [g a] } := by
      unfold add_transaction
      rw [hmid a, hs]
      simp
    have hclosed :
        is_month_closed { s with transactions := s.transactions ++ [g a] } mid
          = false := by
      unfold is_month_closed at hs ⊢
      exact hs
    simp only [List.foldlM_cons, hstep]
    show List.foldlM (fun s x => add_transaction s (g x))
      { s with transactions := s.transactions ++ [g a] } rest = _
    rw [ih _ hclosed]
    simp [List.append_assoc]

deriving instance DecidableEq for Except

/-- Bind on a successful `Except` computation just continues. -/
theorem exceptBind_ok {ε α β : Type} (a : α) (f : α → Except ε β) :
    (Except.ok a : Except ε α) >>= f = f a := rfl

/-- `open_month` on an existing month id is a no-op. -/
theorem open_month_exists_spec (db : DB) (mid : String) (sb : ℤ)
    (h : month_exists db mid = true) : open_month db mid sb = .ok db := by
  unfold open_month
  simp [h]

/-- `open_month` on a fresh month id appends the open month row and
exactly the materialized transactions of the active templates. -/
theorem open_month_spec (db : DB) (mid : String) (sb : ℤ)
    (h : month_exists db mid = false) :
    open_month db mid sb = .ok
      { db with
        months := db.months ++ [⟨mid, sb, none, "open"⟩],
        transactions := db.transactions
          ++ (get_active_fixed_expenses db).map (fixedExpenseTxn mid)
          ++ (get_active_income_sources db).map (incomeSourceTxn mid) } := by
  have hfind : db.months.find? (fun m => m.month_id == mid) = none := by
    unfold month_exists at h
    cases hf : db.months.find? (fun m => m.month_id == mid) with
    | none => rfl
    | some v => rw [hf] at h; cases h
  have hclosed : is_month_closed
      { db with months := db.months ++ [⟨mid, sb, none, "open"⟩] } mid = false := by
    unfold is_month_closed
    show (match (db.months ++ [(⟨mid, sb, none, "open"⟩ : Month)]).find?
        (fun m : Month => m.month_id == mid) with
      | some row => row.status == "closed"
      | none => false) = false
    rw [List.find?_append, hfind]
    simp [List.find?]
  have h1 := foldlM_add_transaction_ok (fixedExpenseTxn mid) mid (fun _ => rfl)
    (get_active_fixed_expenses
      { db with months := db.months ++ [⟨mid, sb, none, "open"⟩] })
    { db with months := db.months ++ [⟨mid, sb, none, "open"⟩] } hclosed
  have hclosed2 : is_month_closed
      { db with
        months := db.months ++ [⟨mid, sb, none, "open"⟩],
        transactions := db.transactions
          ++ (get_active_fixed_expenses
              { db with months := db.months ++ [⟨mid, sb, none, "open"⟩] }).map
            (fixedExpenseTxn mid) } mid = false := by
    unfold is_month_closed at hclosed ⊢
    exact hclosed
  have h2 := foldlM_add_transaction_ok (incomeSourceTxn mid) mid (fun _ => rfl)
    (get_active_income_sources
      { db with
        months := db.months ++ [⟨mid, sb, none, "open"⟩],
        transactions := db.transactions
          ++ (get_active_fixed_expenses
              { db with months := db.months ++ [⟨mid, sb, none, "open"⟩] }).map
            (fixedExpenseTxn mid) })
    { db with
      months := db.months ++ [⟨mid, sb, none, "open"⟩],
      transactions := db.transactions
        ++ (get_active_fixed_expenses
            { db with months := db.months ++ [⟨mid, sb, none, "open"⟩] }).map
          (fixedExpenseTxn mid) } hclosed2
  unfold open_month
  simp only [h, Bool.false_eq_true, if_false]
  rw [h1]
  simp only [exceptBind_ok]
  rw [h2]
  simp only [exceptBind_ok]
  rfl

/-! ## Sample rows for witnesses -/

/-- A sample open month. -/
def sampleOpenMonth : Month := ⟨"2024-01", 100, none, "open"⟩

/-- A sample closed month. -/
def sampleClosedMonth : Month := ⟨"2023-12", 80, some 90, "closed"⟩

/-- A sample debit transaction in the open month. -/
def sampleTxn : Txn :=
  ⟨"2024-01-05", "2024-01", 40, "Variable", none, some "debit",
   some 1, none, none, none, none, "", "normal"⟩

/-- A sample credit-card transaction in the open month: it carries a
`credit_card_id` and no `bank_account_id`. -/
def sampleCardTxn : Txn :=
  ⟨"2024-01-10", "2024-01", -30, "Variable", none, some "credit_card",
   none, some 7, some "2024-01", some "2024-02", some "2024-02-05", "", "normal"⟩

/-- A sample store with one open and one closed month. -/
def sampleDB : DB :=
  ⟨[sampleClosedMonth, sampleOpenMonth], [sampleTxn, sampleCardTxn],
   [⟨"2024-01", 1, 20, none⟩], [], [], []⟩

/-- `sampleDB` after closing 2024-01: aggregate net 40 - 30 = 10, so the
aggregate ending balance is 110; account 1 only sees the debit
transaction, ending at 20 + 40 = 60. -/
def sampleDBClosed : DB :=
  ⟨[sampleClosedMonth, ⟨"2024-01", 100, some 110, "closed"⟩],
   [sampleTxn, sampleCardTxn], [⟨"2024-01", 1, 20, some 60⟩], [], [], []⟩

/-- C3: `open_month` is idempotent — when a `months` row with the given
id already exists, the call returns without changing any table, for any
starting balance. -/
theorem claim_C3_open_month_idempotent (db : DB) (mid : String) (sb : ℤ)
    (h : month_exists db mid = true) :
    open_month db mid sb = .ok db := by
  unfold open_month
  simp [h]

/-- Witness for C3 at a concrete store. -/
theorem claim_C3_witness :
    month_exists sampleDB "2024-01" = true ∧
    open_month sampleDB "2024-01" 5 = .ok sampleDB :=
  ⟨by decide, claim_C3_open_month_idempotent sampleDB "2024-01" 5 (by decide)⟩

/-- C10: the closed-month guard only rejects months that exist with
status closed — when no `months` row carries the target id at all,
`add_transaction` does not raise and appends the row, so the ledger can
hold transactions for months that were never opened. -/
theorem claim_C10_unopened_month_accepts (db : DB) (t : Txn)
    (h : ∀ m ∈ db.months, m.month_id ≠ t.month_id) :
    add_transaction db t = .ok { db with transactions := db.transactions ++ [t] } := by
  have hclosed : is_month_closed db t.month_id = false := by
    unfold is_month_closed
    rw [List.find?_eq_none.mpr]
    intro m hm
    simp [h m hm]
  unfold add_transaction
  rw [hclosed]
  simp

/-- Witness for C10: inserting into a month with no row succeeds. -/
theorem claim_C10_witness :
    (∀ m ∈ sampleDB.months, m.month_id ≠ "2024-07") ∧
    add_transaction sampleDB { sampleTxn with month_id := "2024-07" } =
      .ok { sampleDB with
            transactions := sampleDB.transactions
              ++ [{ sampleTxn with month_id := "2024-07" }] } :=
  ⟨by decide,
   claim_C10_unopened_month_accepts sampleDB
     { sampleTxn with month_id := "2024-07" } (by decide)⟩

/-- C2: month status only moves open→closed.  No lifecycle operation
(`open_month`, `close_month`, `add_transaction`) ever alters an
existing closed `months` row — the row survives verbatim, status,
ending balance and all — and `close_month` on a month that has no row
or no open row raises; a raise happens before any write, which the
`.error` result (carrying no successor state) models. -/
theorem claim_C2_status_transitions :
    (∀ (db : DB) (op : Op) (db' : DB), monthsUnique db →
        applyOp db op = .ok db' →
        ∀ m ∈ db.months, m.status = "closed" → m ∈ db'.months)
    ∧ (∀ (db : DB) (mid : String),
        (∀ m ∈ db.months, m.month_id = mid → m.status ≠ "open") →
        ∃ e, close_month db mid = .error e) := by
  constructor
  · intro db op db' hnd hok m hm hclosed
    cases op with
    | addTx t =>
      simp only [applyOp] at hok
      obtain ⟨-, rfl⟩ := add_transaction_ok_iff.mp hok
      exact hm
    | openM mid sb =>
      simp only [applyOp] at hok
      by_cases hex : month_exists db mid
      · rw [open_month_exists_spec db mid sb hex] at hok
        cases hok
        exact hm
      · rw [open_month_spec db mid sb (Bool.eq_false_iff.mpr hex)] at hok
        cases hok
        exact List.mem_append_left _ hm
    | closeM mid =>
      simp only [applyOp] at hok
      cases hcm : close_month db mid with
      | error e => rw [hcm] at hok; cases hok
      | ok pr =>
        rw [hcm] at hok
        cases hok
        unfold close_month at hcm
        cases hf : db.months.find?
            (fun x => x.month_id == mid && x.status == "open") with
        | none => rw [hf] at hcm; cases hcm
        | some row =>
          rw [hf] at hcm
          cases hcm
          have hrowP := List.find?_some hf
          have hrowMem := List.mem_of_find?_eq_some hf
          simp only [Bool.and_eq_true, beq_iff_eq] at hrowP
          by_cases hmid : m.month_id = mid
          · have hmr : m = row :=
              month_eq_of_unique hnd hm hrowMem (hmid.trans hrowP.1.symm)
            rw [hmr, hrowP.2] at hclosed
            exact absurd hclosed (by decide)
          · exact List.mem_map.mpr ⟨m, hm, by simp [hmid]⟩
  · intro db mid h
    unfold close_month
    rw [find?_open_eq_none h]
    exact ⟨_, rfl⟩

/-- Witness for C2: closing the open month of `sampleDB` leaves the
closed 2023-12 row untouched, and closing the already-closed month
raises. -/
theorem claim_C2_witness :
    sampleClosedMonth ∈ sampleDBClosed.months ∧
    ∃ e, close_month sampleDB "2023-12" = .error e :=
  ⟨claim_C2_status_transitions.1 sampleDB (.closeM "2024-01") sampleDBClosed
     (by decide) (by decide) sampleClosedMonth (by decide) (by decide),
   claim_C2_status_transitions.2 sampleDB "2023-12" (by decide)⟩

/-- C1: a successful `close_month` returns the open row's starting
balance plus the month's transaction net, freezes exactly that value
(and status closed) into the month row, and freezes each
`account_month_balances` row at its own starting balance plus the net
of the month's transactions carrying that `bank_account_id`; a
transaction with no `bank_account_id` (as credit-card transactions are
stored) is excluded from every per-account net. -/
theorem claim_C1_close_month_balances (db : DB) (mid : String)
    (db' : DB) (r : ℤ) (hnd : monthsUnique db)
    (h : close_month db mid = .ok (db', r)) :
    (∃ m ∈ db.months, m.month_id = mid ∧ m.status = "open" ∧
       r = m.starting_balance + monthNet db.transactions mid)
    ∧ (∀ m' ∈ db'.months, m'.month_id = mid →
        m'.status = "closed" ∧
        m'.ending_balance =
          some (m'.starting_balance + monthNet db.transactions mid))
    ∧ (∀ a' ∈ db'.account_month_balances, a'.month_id = mid →
        a'.ending_balance =
          some (a'.starting_balance +
            accountNet db.transactions mid a'.bank_account_id))
    ∧ (∀ t ∈ db.transactions, t.bank_account_id = none → ∀ acct : Nat,
        t ∉ db.transactions.filter
          (fun x => x.month_id == mid && x.bank_account_id == some acct)) := by
  unfold close_month at h
  cases hf : db.months.find? (fun m => m.month_id == mid && m.status == "open") with
  | none => rw [hf] at h; cases h
  | some row =>
    rw [hf] at h
    cases h
    have hrowP := List.find?_some hf
    have hrowMem := List.mem_of_find?_eq_some hf
    simp only [Bool.and_eq_true, beq_iff_eq] at hrowP
    refine ⟨⟨row, hrowMem, hrowP.1, hrowP.2, rfl⟩, ?_, ?_, ?_⟩
    · intro m' hm' hid
      obtain ⟨m₀, hm₀, rfl⟩ := List.mem_map.mp hm'
      by_cases hc : m₀.month_id = mid
      · have hm₀row : m₀ = row := month_eq_of_unique hnd hm₀ hrowMem
          (hc.trans hrowP.1.symm)
        subst hm₀row
        simp [hc]
      · simp only [hc, if_neg, beq_iff_eq, if_false] at hid ⊢
    · intro a' ha' hid
      obtain ⟨a₀, ha₀, rfl⟩ := List.mem_map.mp ha'
      by_cases hc : a₀.month_id = mid
      · simp [hc]
      · simp only [hc, if_neg, beq_iff_eq, if_false] at hid ⊢
    · intro t _ hnone acct hmem
      have := (List.mem_filter.mp hmem).2
      simp only [Bool.and_eq_true, beq_iff_eq] at this
      rw [hnone] at this
      cases this.2

/-- Witness for C1 at `sampleDB`: aggregate ending balance 110,
account 1 ending balance 60 (the credit-card transaction of -30 counts
in the aggregate but not against account 1). -/
theorem claim_C1_witness :
    (∃ m ∈ sampleDB.months, m.month_id = "2024-01" ∧ m.status = "open" ∧
       (110 : ℤ) = m.starting_balance + monthNet sampleDB.transactions "2024-01")
    ∧ (∀ m' ∈ sampleDBClosed.months, m'.month_id = "2024-01" →
        m'.status = "closed" ∧
        m'.ending_balance =
          some (m'.starting_balance + monthNet sampleDB.transactions "2024-01"))
    ∧ (∀ a' ∈ sampleDBClosed.account_month_balances, a'.month_id = "2024-01" →
        a'.ending_balance =
          some (a'.starting_balance +
            accountNet sampleDB.transactions "2024-01" a'.bank_account_id))
    ∧ (∀ t ∈ sampleDB.transactions, t.bank_account_id = none → ∀ acct : Nat,
        t ∉ sampleDB.transactions.filter
          (fun x => x.month_id == "2024-01" && x.bank_account_id == some acct)) :=
  claim_C1_close_month_balances sampleDB "2024-01" sampleDBClosed 110
    (by decide) (by decide)

/-- C6: `add_transaction` into a month whose status is closed raises
the "month closed" error, and — since the raise happens before any
insert — the transactions table is untouched, which the `.error` result
models; into a month whose status is open it inserts exactly one row. -/
theorem claim_C6_closed_month_guard (db : DB) (t : Txn) :
    ((∃ m ∈ db.months, db.months.find? (fun x => x.month_id == t.month_id) = some m
        ∧ m.status = "closed") →
      add_transaction db t =
        .error ("Month " ++ t.month_id ++
          " is closed. Add a correction to the current month."))
    ∧ (∀ m ∈ db.months, (db.months.map Month.month_id).Nodup →
        m.month_id = t.month_id → m.status = "open" →
        add_transaction db t =
          .ok { db with transactions := db.transactions ++ [t] } ∧
        { db with transactions := db.transactions ++ [t] }.transactions.length =
          db.transactions.length + 1) := by
  constructor
  · rintro ⟨m, _, hfind, hstatus⟩
    have hclosed : is_month_closed db t.month_id = true := by
      unfold is_month_closed
      rw [hfind]
      simp [hstatus]
    unfold add_transaction
    rw [hclosed]
    simp
  · intro m hm hnd hid hstatus
    have hfind : db.months.find? (fun x => x.month_id == t.month_id) = some m := by
      rw [← hid]
      exact find?_month_eq hnd hm
    have hclosed : is_month_closed db t.month_id = false := by
      unfold is_month_closed
      rw [hfind]
      simp [hstatus]
    constructor
    · unfold add_transaction
      rw [hclosed]
      simp
    · simp

/-- Witness for C6: the closed month rejects, the open month accepts. -/
theorem claim_C6_witness :
    add_transaction sampleDB { sampleTxn with month_id := "2023-12" } =
      .error "Month 2023-12 is closed. Add a correction to the current month."
    ∧ add_transaction sampleDB sampleTxn =
        .ok { sampleDB with transactions := sampleDB.transactions ++ [sampleTxn] } :=
  ⟨(claim_C6_closed_month_guard sampleDB
      { sampleTxn with month_id := "2023-12" }).1
     ⟨sampleClosedMonth, by decide, by decide, by decide⟩,
   ((claim_C6_closed_month_guard sampleDB sampleTxn).2 sampleOpenMonth
      (by decide) (by decide) (by decide) (by decide)).1⟩


/-! ## C5: materialization on month open -/

/-- A sample active fixed-expense template (due day 31 gets clamped). -/
def sampleFx : Template := ⟨"Rent", 900, 31, "Fixed", some "Housing", some 1, true⟩

/-- A sample inactive fixed-expense template. -/
def sampleFxOld : Template := ⟨"Gym", 50, 5, "Fixed", none, none, false⟩

/-- A sample active income-source template. -/
def sampleInc : Template := ⟨"Salary", 3000, 28, "Income", none, some 1, true⟩

/-- A sample store holding only templates. -/
def sampleTplDB : DB := ⟨[], [], [], [sampleFx, sampleFxOld], [sampleInc], []⟩

/-- C5: opening a fresh month inserts the open `months` row and
materializes exactly one transaction per active fixed-expense template
and one per active income-source template; a fixed-expense transaction
carries amount `-abs(amount)`, the template's category/subcategory, a
date at the due day clamped to the month's length, and a note naming
the template; an income transaction carries amount `+abs(amount)` and
category "Income". -/
theorem claim_C5_open_month_materializes (db : DB) (mid : String) (sb : ℤ)
    (h : month_exists db mid = false) :
    open_month db mid sb = .ok
      { db with
        months := db.months ++ [⟨mid, sb, none, "open"⟩],
        transactions := db.transactions
          ++ (get_active_fixed_expenses db).map (fixedExpenseTxn mid)
          ++ (get_active_income_sources db).map (incomeSourceTxn mid) }
    ∧ (∀ fx : Template,
        (fixedExpenseTxn mid fx).amount = -|fx.amount| ∧
        (fixedExpenseTxn mid fx).category = fx.category ∧
        (fixedExpenseTxn mid fx).subcategory = fx.subcategory ∧
        (fixedExpenseTxn mid fx).date =
          dateIso ⟨(parseMonthId mid).1, (parseMonthId mid).2,
            clamp_day (parseMonthId mid).1 (parseMonthId mid).2 fx.due_day⟩ ∧
        (fixedExpenseTxn mid fx).month_id = mid ∧
        (fixedExpenseTxn mid fx).note = "Fixed expense: " ++ fx.name)
    ∧ (∀ inc : Template,
        (incomeSourceTxn mid inc).amount = |inc.amount| ∧
        (incomeSourceTxn mid inc).category = "Income" ∧
        (incomeSourceTxn mid inc).subcategory = inc.subcategory ∧
        (incomeSourceTxn mid inc).date =
          dateIso ⟨(parseMonthId mid).1, (parseMonthId mid).2,
            clamp_day (parseMonthId mid).1 (parseMonthId mid).2 inc.due_day⟩ ∧
        (incomeSourceTxn mid inc).month_id = mid ∧
        (incomeSourceTxn mid inc).note = "Income: " ++ inc.name) :=
  ⟨open_month_spec db mid sb h,
   fun fx => ⟨rfl, rfl, rfl, rfl, rfl, rfl⟩,
   fun inc => ⟨rfl, rfl, rfl, rfl, rfl, rfl⟩⟩

/-- Witness for C5: opening 2024-02 on the template store materializes
the rent expense on 2024-02-29 (leap-clamped from day 31) and the
salary income on 2024-02-28, skipping the inactive template. -/
theorem claim_C5_witness :
    open_month sampleTplDB "2024-02" 500 = .ok
      { sampleTplDB with
        months := sampleTplDB.months ++ [⟨"2024-02", 500, none, "open"⟩],
        transactions := sampleTplDB.transactions
          ++ (get_active_fixed_expenses sampleTplDB).map (fixedExpenseTxn "2024-02")
          ++ (get_active_income_sources sampleTplDB).map (incomeSourceTxn "2024-02") }
    ∧ (get_active_fixed_expenses sampleTplDB).map (fixedExpenseTxn "2024-02") =
        [⟨"2024-02-29", "2024-02", -900, "Fixed", some "Housing", some "debit",
          some 1, none, none, none, none, "Fixed expense: Rent", "normal"⟩]
    ∧ (get_active_income_sources sampleTplDB).map (incomeSourceTxn "2024-02") =
        [⟨"2024-02-28", "2024-02", 3000, "Income", none, some "debit",
          some 1, none, none, none, none, "Income: Salary", "normal"⟩] :=
  ⟨(claim_C5_open_month_materializes sampleTplDB "2024-02" 500 (by decide)).1,
   by decide, by decide⟩

/-! ## C8: planned amount per objective -/

/-- When a key has a unique binding in the dict, the lookup returns it. -/
theorem dictGet_eq_some {l : List (String × ℚ)} {k : String} {p : ℚ}
    (hmem : (k, p) ∈ l) (huniq : ∀ q ∈ l, q.1 = k → q.2 = p) :
    dictGet l k = some p := by
  unfold dictGet
  cases hf : l.reverse.find? (fun q => q.1 == k) with
  | none =>
    have := List.find?_eq_none.mp hf (k, p) (List.mem_reverse.mpr hmem)
    simp at this
  | some e =>
    have he := List.find?_some hf
    have hemem := List.mem_reverse.mp (List.mem_of_find?_eq_some hf)
    simp only [beq_iff_eq] at he
    simp [huniq e hemem he]

/-- When a key has no binding, the lookup misses. -/
theorem dictGet_eq_none {l : List (String × ℚ)} {k : String}
    (h : ∀ q ∈ l, q.1 ≠ k) : dictGet l k = none := by
  unfold dictGet
  rw [List.find?_eq_none.mpr]
  · rfl
  · intro q hq
    simp [h q (List.mem_reverse.mp hq)]

/-- C8: `get_category_planned` raises the "no objective defined" error
whenever no active (NULL-subcategory) objective row exists for the
category — it never defaults to zero — and, when the category has
exactly one such row with percentage p, returns the month's total
income (the sum of amounts of its Income-category transactions) times
p. -/
theorem claim_C8_category_planned (db : DB) (mid cat : String) :
    ((∀ o ∈ db.budget_objectives, o.active = true → o.subcategory = none →
        o.category ≠ cat) →
      get_category_planned db mid cat =
        .error ("No objective defined for category " ++ cat))
    ∧ (∀ o ∈ db.budget_objectives, o.active = true → o.subcategory = none →
        o.category = cat →
        (∀ o' ∈ db.budget_objectives, o'.active = true →
          o'.subcategory = none → o'.category = cat → o' = o) →
        get_category_planned db mid cat =
          .ok ((get_total_income db mid : ℚ) * o.percentage)) := by
  constructor
  · intro h
    have hn : dictGet (get_active_objectives db) cat = none := by
      apply dictGet_eq_none
      intro q hq
      obtain ⟨o, ho, rfl⟩ := List.mem_map.mp hq
      have hf := List.mem_filter.mp ho
      simp only [Bool.and_eq_true, beq_iff_eq] at hf
      exact h o hf.1 hf.2.1 hf.2.2
    unfold get_category_planned
    rw [hn]
  · intro o ho hact hsub hcat huniq
    have hs : dictGet (get_active_objectives db) cat = some o.percentage := by
      apply dictGet_eq_some
      · exact List.mem_map.mpr ⟨o, List.mem_filter.mpr
          ⟨ho, by simp [hact, hsub]⟩, by rw [hcat]⟩
      · intro q hq hqk
        obtain ⟨o', ho', rfl⟩ := List.mem_map.mp hq
        have hf := List.mem_filter.mp ho'
        simp only [Bool.and_eq_true, beq_iff_eq] at hf
        rw [huniq o' hf.1 hf.2.1 hf.2.2 hqk]
    unfold get_category_planned
    rw [hs]

/-- The sample objective row: 30 percent of income for Variable. -/
def sampleObjective : Objective := ⟨"Variable", none, 3/10, true⟩

/-- A sample store with one income transaction and one objective. -/
def sampleObjDB : DB :=
  ⟨[], [⟨"2024-01-02", "2024-01", 1000, "Income", none, none, some 1,
     none, none, none, none, "", "normal"⟩], [], [], [], [sampleObjective]⟩

/-- Witness for C8: no objective for Fixed raises; the Variable
objective yields income times its percentage. -/
theorem claim_C8_witness :
    get_category_planned sampleObjDB "2024-01" "Fixed" =
      .error "No objective defined for category Fixed"
    ∧ get_category_planned sampleObjDB "2024-01" "Variable" =
        .ok ((get_total_income sampleObjDB "2024-01" : ℚ) *
          sampleObjective.percentage) :=
  ⟨(claim_C8_category_planned sampleObjDB "2024-01" "Fixed").1
     (by intro o ho _ _
         rw [List.eq_of_mem_singleton ho]
         decide),
   (claim_C8_category_planned sampleObjDB "2024-01" "Variable").2
     sampleObjective (List.mem_singleton.mpr rfl) rfl rfl rfl
     (by intro o' ho' _ _ _
         exact List.eq_of_mem_singleton ho')⟩


/-! ## C9: preview versus materialization -/

/-- Insertion keeps exactly the original elements plus the new one. -/
theorem mem_insertByDueDay {x t : Template} {l : List Template} :
    x ∈ insertByDueDay t l ↔ x = t ∨ x ∈ l := by
  induction l with
  | nil => simp [insertByDueDay]
  | cons a rest ih =>
    unfold insertByDueDay
    by_cases hc : a.due_day ≤ t.due_day
    · simp only [hc, if_pos, List.mem_cons, ih]
      tauto
    · simp only [hc, if_neg, List.mem_cons, not_false_iff]

/-- Sorting by due day keeps exactly the original elements. -/
theorem mem_sortByDueDay {x : Template} {l : List Template} :
    x ∈ sortByDueDay l ↔ x ∈ l := by
  induction l with
  | nil => simp [sortByDueDay]
  | cons a rest ih =>
    unfold sortByDueDay
    rw [mem_insertByDueDay, ih, List.mem_cons]

/-- A fixed-expense template whose stored amount is negative. -/
def negFx : Template := ⟨"Refund", -100, 10, "Fixed", none, none, true⟩

/-- A store holding only the negative-amount template. -/
def negFxDB : DB := ⟨[], [], [], [negFx], [], []⟩

/-- A fixed-expense template whose due day is 0. -/
def zeroDayFx : Template := ⟨"Odd", 10, 0, "Fixed", none, none, true⟩

/-- A store holding only the due-day-0 template. -/
def zeroDayDB : DB := ⟨[], [], [], [zeroDayFx], [], []⟩

/-- Counterexample to C9: on a template with amount -100, the preview
(`-amount`) shows +100 while `open_month` materializes
`-abs(amount) = -100`; and on a template with due day 0 the preview
falls back to the month's last day while `open_month` writes a
day-00 date — so preview and materialization do not agree for every
template amount and due day. -/
theorem claim_C9_counterexample :
    (preview_fixed_expenses_for_month negFxDB "2024-03").1.map
      (fun e => e.amount) = [100]
    ∧ (open_month negFxDB "2024-03" 0).map
        (fun s => s.transactions.map (fun t => t.amount)) = .ok [-100]
    ∧ (100 : ℤ) ≠ -100
    ∧ (preview_fixed_expenses_for_month zeroDayDB "2024-03").1.map
        (fun e => dateIso e.date) = ["2024-03-31"]
    ∧ (open_month zeroDayDB "2024-03" 0).map
        (fun s => s.transactions.map (fun t => t.date)) = .ok ["2024-03-00"]
    ∧ "2024-03-31" ≠ "2024-03-00" := by
  refine ⟨by decide, by decide, by decide, by decide, by decide, by decide⟩

/-- C9 (amended): for every active fixed-expense template whose stored
amount is nonnegative and whose due day is at least 1, the preview row
and the transaction `open_month` materializes agree on the signed
amount and on the (clamped) date. -/
theorem claim_C9_preview_matches_materialization (db : DB) (mid : String)
    (fx : Template) (hfx : fx ∈ get_fixed_expenses db)
    (hm1 : 1 ≤ (parseMonthId mid).2) (hm2 : (parseMonthId mid).2 ≤ 12)
    (hamt : 0 ≤ fx.amount) (hday : 1 ≤ fx.due_day) :
    previewFixedEntry (parseMonthId mid).1 (parseMonthId mid).2 fx ∈
      (preview_fixed_expenses_for_month db mid).1
    ∧ (previewFixedEntry (parseMonthId mid).1 (parseMonthId mid).2 fx).amount =
        (fixedExpenseTxn mid fx).amount
    ∧ dateIso (previewFixedEntry (parseMonthId mid).1 (parseMonthId mid).2 fx).date =
        (fixedExpenseTxn mid fx).date := by
  refine ⟨List.mem_map_of_mem _ hfx, ?_, ?_⟩
  · show -fx.amount = -|fx.amount|
    rw [abs_of_nonneg hamt]
  · by_cases hc : fx.due_day ≤
        daysInMonth (parseMonthId mid).1 (parseMonthId mid).2
    · simp only [previewFixedEntry, hday, hc, and_self, if_pos, if_true]
      show dateIso _ = compute_transaction_date mid fx.due_day
      rw [show compute_transaction_date mid fx.due_day =
        dateIso ⟨(parseMonthId mid).1, (parseMonthId mid).2,
          min fx.due_day
            (daysInMonth (parseMonthId mid).1 (parseMonthId mid).2)⟩ from rfl]
      rw [Nat.min_eq_left hc]
    · have hcond : ¬ (1 ≤ fx.due_day ∧ fx.due_day ≤
          daysInMonth (parseMonthId mid).1 (parseMonthId mid).2) := by
        intro hand
        exact hc hand.2
      simp only [previewFixedEntry, hcond, if_neg, if_false]
      show dateIso _ = compute_transaction_date mid fx.due_day
      rw [show compute_transaction_date mid fx.due_day =
        dateIso ⟨(parseMonthId mid).1, (parseMonthId mid).2,
          min fx.due_day
            (daysInMonth (parseMonthId mid).1 (parseMonthId mid).2)⟩ from rfl]
      rw [Nat.min_eq_right (Nat.le_of_not_le hc)]

/-- Witness for C9 (amended) at the sample template store: the rent
template, due day 31, previews and materializes on 2024-02-29. -/
theorem claim_C9_witness :
    previewFixedEntry (parseMonthId "2024-02").1 (parseMonthId "2024-02").2
        sampleFx ∈ (preview_fixed_expenses_for_month sampleTplDB "2024-02").1
    ∧ (previewFixedEntry (parseMonthId "2024-02").1 (parseMonthId "2024-02").2
        sampleFx).amount = (fixedExpenseTxn "2024-02" sampleFx).amount
    ∧ dateIso (previewFixedEntry (parseMonthId "2024-02").1
        (parseMonthId "2024-02").2 sampleFx).date =
        (fixedExpenseTxn "2024-02" sampleFx).date :=
  claim_C9_preview_matches_materialization sampleTplDB "2024-02" sampleFx
    (by decide) (by decide) (by decide) (by decide) (by decide)


/-! ## C7: half-month cashflow split -/

/-- Membership test of a row in a bucket: non-falsy effective date, the
bucket's category, and the bucket's half of the month (day 1-15 when
`first`, day 16 onward otherwise). -/
def bucketPred (cat : String) (first : Bool) (r : SplitRow) : Bool :=
  !(r.effective_date == "") && r.category == cat
    && (decide (effectiveDay r.effective_date <= 15) == first)

/-- Contribution of a row to its bucket: raw amount for Income,
absolute amount for the other categories. -/
def rowValue (cat : String) (r : SplitRow) : Int :=
  if cat == "Income" then r.amount else |r.amount|

/-- Total of one bucket over a row list. -/
def rowsBucket (rows : List SplitRow) (cat : String) (first : Bool) : Int :=
  ((rows.filter (bucketPred cat first)).map (rowValue cat)).sum

/-- Total of one bucket over the transactions selected by a population
filter `q`, with effective date `eff`. -/
def txnBucket (txns : List Txn) (q : Txn -> Bool) (eff : Txn -> String)
    (cat : String) (first : Bool) : Int :=
  ((txns.filter (fun t => q t && bucketPred cat first (txnRow eff t))).map
    (fun t => rowValue cat (txnRow eff t))).sum

/-- The loop of `get_half_month_cashflow_splits` computes exactly the
eight bucket totals. -/
theorem foldl_addSplitRow (rows : List SplitRow) (sp : Splits) :
    rows.foldl addSplitRow sp =
      (Splits.mk
        (sp.incomeFirst + rowsBucket rows "Income" true)
        (sp.incomeSecond + rowsBucket rows "Income" false)
        (sp.fixedFirst + rowsBucket rows "Fixed" true)
        (sp.fixedSecond + rowsBucket rows "Fixed" false)
        (sp.variableFirst + rowsBucket rows "Variable" true)
        (sp.variableSecond + rowsBucket rows "Variable" false)
        (sp.savingsFirst + rowsBucket rows "Savings" true)
        (sp.savingsSecond + rowsBucket rows "Savings" false)) := by
  induction rows generalizing sp with
  | nil => simp [rowsBucket]
  | cons r rest ih =>
    rw [List.foldl_cons, ih]
    by_cases he : r.effective_date = ""
    · simp [addSplitRow, rowsBucket, bucketPred, he, List.filter_cons]
    · by_cases hf : effectiveDay r.effective_date <= 15
      · by_cases h1 : r.category = "Income"
        · simp [addSplitRow, rowsBucket, bucketPred, rowValue, he, hf, h1,
            List.filter_cons, add_assoc]
        · by_cases h2 : r.category = "Fixed"
          · simp [addSplitRow, rowsBucket, bucketPred, rowValue, he, hf, h1, h2,
              List.filter_cons, add_assoc]
          · by_cases h3 : r.category = "Variable"
            · simp [addSplitRow, rowsBucket, bucketPred, rowValue, he, hf, h1,
                h2, h3, List.filter_cons, add_assoc]
            · by_cases h4 : r.category = "Savings"
              · simp [addSplitRow, rowsBucket, bucketPred, rowValue, he, hf,
                  h1, h2, h3, h4, List.filter_cons, add_assoc]
              · simp [addSplitRow, rowsBucket, bucketPred, rowValue, he, hf,
                  h1, h2, h3, h4, List.filter_cons]
      · by_cases h1 : r.category = "Income"
        · simp [addSplitRow, rowsBucket, bucketPred, rowValue, he, hf, h1,
            List.filter_cons, add_assoc]
        · by_cases h2 : r.category = "Fixed"
          · simp [addSplitRow, rowsBucket, bucketPred, rowValue, he, hf, h1, h2,
              List.filter_cons, add_assoc]
          · by_cases h3 : r.category = "Variable"
            · simp [addSplitRow, rowsBucket, bucketPred, rowValue, he, hf, h1,
                h2, h3, List.filter_cons, add_assoc]
            · by_cases h4 : r.category = "Savings"
              · simp [addSplitRow, rowsBucket, bucketPred, rowValue, he, hf,
                  h1, h2, h3, h4, List.filter_cons, add_assoc]
              · simp [addSplitRow, rowsBucket, bucketPred, rowValue, he, hf,
                  h1, h2, h3, h4, List.filter_cons]

/-- Buckets split over list concatenation. -/
theorem rowsBucket_append (l1 l2 : List SplitRow) (cat : String)
    (first : Bool) :
    rowsBucket (l1 ++ l2) cat first =
      rowsBucket l1 cat first + rowsBucket l2 cat first := by
  simp [rowsBucket, List.filter_append]

/-- A bucket over a query arm is the corresponding transaction-level
bucket. -/
theorem rowsBucket_map (txns : List Txn) (q : Txn -> Bool)
    (eff : Txn -> String) (cat : String) (first : Bool) :
    rowsBucket ((txns.filter q).map (txnRow eff)) cat first =
      txnBucket txns q eff cat first := by
  unfold rowsBucket txnBucket
  induction txns with
  | nil => rfl
  | cons t rest ih =>
    simp only [List.filter_cons]
    by_cases hq : q t
    · by_cases hp : bucketPred cat first (txnRow eff t)
      · simp [hq, hp, List.filter_cons, ih]
      · simp [hq, hp, List.filter_cons, ih]
    · simp [hq, ih]


/-- The claim's population selection, stated in its own words: the
debit/income arm, too, filtered by
`COALESCE(due_month_id, month_id) = targetMonth` (the source instead
filters this arm by `month_id = targetMonth`). -/
def claimedDebitRows (txns : List Txn) (mid : String) : List SplitRow :=
  (txns.filter (fun t => t.due_month_id.getD t.month_id == mid
      && (t.payment_method == none || t.payment_method == some "debit")
      && isSplitCategory t.category)).map (txnRow Txn.date)

/-- The half-month split as the claim words it, both populations
selected by the COALESCE filter. -/
def claimed_half_month_splits (db : DB) (mid : String) : Splits :=
  (claimedDebitRows db.transactions mid ++ creditRows db.transactions mid).foldl
    addSplitRow Splits.zero

/-- A debit transaction carrying a `due_month_id` different from its
`month_id` — `add_transaction` accepts such a row. -/
def driftTxn : Txn :=
  ⟨"2024-03-10", "2024-03", -50, "Variable", none, some "debit",
   some 1, none, none, some "2024-04", none, "", "normal"⟩

/-- A store holding only `driftTxn`. -/
def driftDB : DB := ⟨[], [driftTxn], [], [], [], []⟩

/-- Counterexample to C7: the code selects the debit/income population
by `month_id = targetMonth`, not by the claimed
`COALESCE(due_month_id, month_id) = targetMonth` — a debit transaction
of month 2024-03 with due month 2024-04 lands in the 2024-03 split
under the code and in neither (2024-03) or the 2024-04 split under the
claim's filter. -/
theorem claim_C7_counterexample :
    get_half_month_cashflow_splits driftDB "2024-03" ≠
      claimed_half_month_splits driftDB "2024-03"
    ∧ get_half_month_cashflow_splits driftDB "2024-04" ≠
      claimed_half_month_splits driftDB "2024-04"
    ∧ (get_half_month_cashflow_splits driftDB "2024-03").variableFirst = 50
    ∧ (claimed_half_month_splits driftDB "2024-03").variableFirst = 0 := by
  refine ⟨by decide, by decide, by decide, by decide⟩

/-- A debit transaction dated the 15th. -/
def tx15 : Txn :=
  ⟨"2024-03-15", "2024-03", -20, "Variable", none, some "debit",
   some 1, none, none, none, none, "", "normal"⟩

/-- A debit transaction dated the 16th. -/
def tx16 : Txn :=
  ⟨"2024-03-16", "2024-03", -25, "Variable", none, some "debit",
   some 1, none, none, none, none, "", "normal"⟩

/-- A credit-card purchase late in 2024-03, due on 2024-05-10. -/
def ccLateTxn : Txn :=
  ⟨"2024-03-25", "2024-03", -80, "Variable", none, some "credit_card",
   none, some 1, some "2024-04", some "2024-05", some "2024-05-10", "", "normal"⟩

/-- A store with the three half-month example transactions. -/
def halfDB : DB := ⟨[], [tx15, tx16, ccLateTxn], [], [], [], []⟩

/-- C7 (amended): the half-month split partitions
Income/Fixed/Variable/Savings into a day 1-15 bucket and a day 16-end
bucket, debit/income transactions (selected by
`month_id = targetMonth`) bucketed by their own date and credit-card
transactions (selected by `COALESCE(due_month_id, month_id) =
targetMonth`) by `COALESCE(due_date, date)`.  In particular, a debit
transaction dated the 15th lands in "first", one dated the 16th in
"second", and a credit-card transaction with due date on the 10th of
its due month counts toward that due month's "first" half regardless of
its purchase date. -/
theorem claim_C7_half_month_splits (db : DB) (mid : String) :
    (get_half_month_cashflow_splits db mid =
      (Splits.mk
        (txnBucket db.transactions (debitPred mid) Txn.date "Income" true
          + txnBucket db.transactions (creditPred mid)
              (fun t => t.due_date.getD t.date) "Income" true)
        (txnBucket db.transactions (debitPred mid) Txn.date "Income" false
          + txnBucket db.transactions (creditPred mid)
              (fun t => t.due_date.getD t.date) "Income" false)
        (txnBucket db.transactions (debitPred mid) Txn.date "Fixed" true
          + txnBucket db.transactions (creditPred mid)
              (fun t => t.due_date.getD t.date) "Fixed" true)
        (txnBucket db.transactions (debitPred mid) Txn.date "Fixed" false
          + txnBucket db.transactions (creditPred mid)
              (fun t => t.due_date.getD t.date) "Fixed" false)
        (txnBucket db.transactions (debitPred mid) Txn.date "Variable" true
          + txnBucket db.transactions (creditPred mid)
              (fun t => t.due_date.getD t.date) "Variable" true)
        (txnBucket db.transactions (debitPred mid) Txn.date "Variable" false
          + txnBucket db.transactions (creditPred mid)
              (fun t => t.due_date.getD t.date) "Variable" false)
        (txnBucket db.transactions (debitPred mid) Txn.date "Savings" true
          + txnBucket db.transactions (creditPred mid)
              (fun t => t.due_date.getD t.date) "Savings" true)
        (txnBucket db.transactions (debitPred mid) Txn.date "Savings" false
          + txnBucket db.transactions (creditPred mid)
              (fun t => t.due_date.getD t.date) "Savings" false)))
    ∧ get_half_month_cashflow_splits halfDB "2024-03" =
        ⟨0, 0, 0, 0, 20, 25, 0, 0⟩
    ∧ get_half_month_cashflow_splits halfDB "2024-05" =
        ⟨0, 0, 0, 0, 80, 0, 0, 0⟩ := by
  refine ⟨?_, by decide, by decide⟩
  unfold get_half_month_cashflow_splits debitRows creditRows
  rw [foldl_addSplitRow]
  simp [rowsBucket_append, rowsBucket_map, Splits.zero]

end BudgetApp
